import Mathlib

/-!
Shallow embedding of the dependency-learner component
(src/components/dependency-learner/src/lib.rs): a proxy-embedded HTTP
observer that correlates downstream peer identity with the resolved
upstream cluster and emits a dependency edge at most once per
transaction.

Host interactions (property lookups, request headers, logging, adding a
response header, the returned Action) are made explicit: each callback
takes an environment record describing what the host would answer and
returns the updated observer state together with the logs and headers it
produced.
-/

namespace DepLearner

/-- Result type returned by the HTTP callbacks to the host
(proxy-wasm `Action`). -/
inductive Action where
  | Continue
  | Pause
deriving DecidableEq, Repr

/-- `DependencyLearnerConfig`: the module configuration, a single
optional response header name (src lines 13-16). -/
structure DependencyLearnerConfig where
  response_header : Option String
deriving DecidableEq, Repr

/-- `DependencyLearnerRoot`: process-wide state, holds the validated
configuration (src lines 18-20). -/
structure DependencyLearnerRoot where
  config : DependencyLearnerConfig
deriving DecidableEq, Repr

/-- `DependencyLearnerRoot::new` (src lines 23-27): default
configuration, response header unset. -/
def DependencyLearnerRoot.new : DependencyLearnerRoot :=
  { config := { response_header := none } }

/-- `DependencyLearner`: per-transaction observation state
(src lines 63-70). -/
structure DependencyLearner where
  notified : Bool
  path : Option String
  authority : Option String
  upstream_cluster : Option String
  downstream_peer_certificate : Option String
  config : DependencyLearnerConfig
deriving DecidableEq, Repr

/-- `DependencyLearner::new` (src lines 73-82): fresh observer with
all-empty observation state and a copy of the configuration. -/
def DependencyLearner.new (config : DependencyLearnerConfig) : DependencyLearner :=
  { notified := false
    path := none
    authority := none
    upstream_cluster := none
    downstream_peer_certificate := none
    config := config }

/-! ## UTF-8 decoding

Model of Rust `String::from_utf8` over a byte list: strict UTF-8
(continuation-byte ranges, no overlong forms, no surrogates, maximum
code point 0x10FFFF), returning `none` exactly when the bytes are not
valid UTF-8. -/

/-- A UTF-8 continuation byte, `0x80 ..= 0xBF`. -/
def isContByte (b : Nat) : Bool :=
  0x80 ≤ b && b ≤ 0xBF

/-- Decode a byte list to the list of code points it encodes, `none` if
it is not valid UTF-8. -/
def utf8DecodeCps : List Nat → Option (List Nat)
  | [] => some []
  | b0 :: rest =>
    if b0 ≤ 0x7F then
      (utf8DecodeCps rest).map (fun cs => b0 :: cs)
    else if 0xC2 ≤ b0 && b0 ≤ 0xDF then
      match rest with
      | b1 :: rest1 =>
        if isContByte b1 then
          (utf8DecodeCps rest1).map (fun cs => ((b0 - 0xC0) * 0x40 + (b1 - 0x80)) :: cs)
        else none
      | _ => none
    else if b0 == 0xE0 then
      match rest with
      | b1 :: b2 :: rest2 =>
        if (0xA0 ≤ b1 && b1 ≤ 0xBF) && isContByte b2 then
          (utf8DecodeCps rest2).map
            (fun cs => ((b0 - 0xE0) * 0x1000 + (b1 - 0x80) * 0x40 + (b2 - 0x80)) :: cs)
        else none
      | _ => none
    else if (0xE1 ≤ b0 && b0 ≤ 0xEC) || (0xEE ≤ b0 && b0 ≤ 0xEF) then
      match rest with
      | b1 :: b2 :: rest2 =>
        if isContByte b1 && isContByte b2 then
          (utf8DecodeCps rest2).map
            (fun cs => ((b0 - 0xE0) * 0x1000 + (b1 - 0x80) * 0x40 + (b2 - 0x80)) :: cs)
        else none
      | _ => none
    else if b0 == 0xED then
      match rest with
      | b1 :: b2 :: rest2 =>
        if (0x80 ≤ b1 && b1 ≤ 0x9F) && isContByte b2 then
          (utf8DecodeCps rest2).map
            (fun cs => ((b0 - 0xE0) * 0x1000 + (b1 - 0x80) * 0x40 + (b2 - 0x80)) :: cs)
        else none
      | _ => none
    else if b0 == 0xF0 then
      match rest with
      | b1 :: b2 :: b3 :: rest3 =>
        if (0x90 ≤ b1 && b1 ≤ 0xBF) && (isContByte b2 && isContByte b3) then
          (utf8DecodeCps rest3).map
            (fun cs =>
              ((b0 - 0xF0) * 0x40000 + (b1 - 0x80) * 0x1000 +
                (b2 - 0x80) * 0x40 + (b3 - 0x80)) :: cs)
        else none
      | _ => none
    else if 0xF1 ≤ b0 && b0 ≤ 0xF3 then
      match rest with
      | b1 :: b2 :: b3 :: rest3 =>
        if isContByte b1 && (isContByte b2 && isContByte b3) then
          (utf8DecodeCps rest3).map
            (fun cs =>
              ((b0 - 0xF0) * 0x40000 + (b1 - 0x80) * 0x1000 +
                (b2 - 0x80) * 0x40 + (b3 - 0x80)) :: cs)
        else none
      | _ => none
    else if b0 == 0xF4 then
      match rest with
      | b1 :: b2 :: b3 :: rest3 =>
        if (0x80 ≤ b1 && b1 ≤ 0x8F) && (isContByte b2 && isContByte b3) then
          (utf8DecodeCps rest3).map
            (fun cs =>
              ((b0 - 0xF0) * 0x40000 + (b1 - 0x80) * 0x1000 +
                (b2 - 0x80) * 0x40 + (b3 - 0x80)) :: cs)
        else none
      | _ => none
    else none

/-- Model of Rust `String::from_utf8`: decode a byte list to a string,
`none` exactly when the bytes are not valid UTF-8. -/
def from_utf8 (bytes : List Nat) : Option String :=
  (utf8DecodeCps bytes).map (fun cs => String.mk (cs.map Char.ofNat))

/-! ## Configuration parsing

Model of `serde_json::from_slice::<DependencyLearnerConfig>`
(src line 41) at the level of JSON values. A payload is represented as
an optional JSON value: `none` stands for bytes that are not
well-formed JSON at all; `some j` stands for bytes whose parsed JSON
value is `j`. -/

/-- A JSON value. -/
inductive Json where
  | null
  | bool (b : Bool)
  | num (n : Int)
  | str (s : String)
  | arr (elems : List Json)
  | obj (fields : List (String × Json))

/-- Look up a field in a JSON object the way a serde-derived struct
deserializer does: `none` on a duplicate occurrence of the field (an
error), `some none` when the field is absent, `some (some v)` when it
occurs exactly once with value `v`. -/
def getFieldOnce (k : String) : List (String × Json) → Option (Option Json)
  | [] => some none
  | (k0, v) :: rest =>
    if k0 = k then
      match getFieldOnce k rest with
      | some none => some (some v)
      | _ => none
    else getFieldOnce k rest

/-- Deserialize a `DependencyLearnerConfig` from a JSON value, the way
serde's derived impl does. From an object: the optional field
`response_header` must be a string or null, unrecognized fields are
ignored, a duplicate field is an error. From an array (serde's sequence
representation of a struct, fields in declaration order): exactly one
element, a string or null; a wrong length or element type is an error.
Every other JSON value is a type error. -/
def deserializeConfig : Json → Option DependencyLearnerConfig
  | Json.obj fields =>
    match getFieldOnce "response_header" fields with
    | none => none
    | some none => some { response_header := none }
    | some (some Json.null) => some { response_header := none }
    | some (some (Json.str s)) => some { response_header := some s }
    | some (some _) => none
  | Json.arr elems =>
    match elems with
    | [Json.null] => some { response_header := none }
    | [Json.str s] => some { response_header := some s }
    | _ => none
  | _ => none

/-- Model of `serde_json::from_slice::<DependencyLearnerConfig>` on the
raw payload: fails on bytes that are not well-formed JSON, otherwise
deserializes the JSON value. -/
def serde_json_from_slice (payload : Option Json) : Option DependencyLearnerConfig :=
  payload.bind deserializeConfig

/-- `DependencyLearnerRoot::on_configure` (src lines 38-52). The
argument is the host's `get_plugin_configuration()` answer: `none` when
no bytes are supplied, `some payload` otherwise. Returns the updated
root state and the boolean success flag. -/
def on_configure (root : DependencyLearnerRoot) (payload : Option (Option Json)) :
    DependencyLearnerRoot × Bool :=
  match payload with
  | none => (root, true)
  | some raw =>
    match serde_json_from_slice raw with
    | some c => ({ config := c }, true)
    | none => (root, false)

/-- `DependencyLearnerRoot::create_http_context` (src lines 58-60):
fresh observer holding a copy of the current configuration. -/
def create_http_context (root : DependencyLearnerRoot) : DependencyLearner :=
  DependencyLearner.new root.config

/-! ## Request-headers callback -/

/-- Host answers available during `on_http_request_headers`: the
`:authority` and `:path` request header values. -/
structure ReqEnv where
  authority : Option String
  path : Option String
deriving DecidableEq, Repr

/-- `DependencyLearner::on_http_request_headers` (src lines 88-101):
on a non-final frame do nothing; on the final frame capture the
`:authority` and `:path` header values when present. Always returns
`Action::Continue`. -/
def on_http_request_headers (s : DependencyLearner) (env : ReqEnv) (end_of_stream : Bool) :
    DependencyLearner × Action :=
  if !end_of_stream then
    (s, Action.Continue)
  else
    ({ s with
        authority := env.authority.or s.authority
        path := env.path.or s.path },
      Action.Continue)

/-! ## Response-headers callback -/

/-- Host answers available during `on_http_response_headers`: the three
property lookups, each an optional raw byte sequence. -/
structure RespEnv where
  mtls : Option (List Nat)
  uri_san_peer_certificate : Option (List Nat)
  cluster_name : Option (List Nat)
deriving DecidableEq, Repr

/-- Log lines the response-headers callback can produce, in source
order: the non-mTLS warning (src line 113), the two non-UTF-8 property
warnings (src lines 121, 134), and the learned-edge trace line
(src line 147) carrying the edge string. -/
inductive LogEntry where
  | warnMtls
  | warnSanNotUtf8
  | warnClusterNotUtf8
  | traceEdge (edge : String)
deriving DecidableEq, Repr

/-- The mTLS check of src line 110: the property value is exactly one
byte and that byte is positive. -/
def mtlsSet (raw : List Nat) : Bool :=
  raw.length == 1 && ((raw.head?.map (fun b => decide (0 < b))).getD false)

/-- `get_property(...).and_then(from_utf8(...).ok())`: the decoded
property value, `none` when the property is absent or its bytes are not
valid UTF-8 (src lines 116-124 and 130-136). -/
def decodeProp (raw : Option (List Nat)) : Option String :=
  raw.bind from_utf8

/-- The warning emitted by `inspect_err` while decoding a property:
fires exactly when the property is present but not valid UTF-8. -/
def decodeWarns (tag : LogEntry) (raw : Option (List Nat)) : List LogEntry :=
  match raw with
  | some bytes => if (from_utf8 bytes).isNone then [tag] else []
  | none => []

/-- Warning log lines of one non-notified response-headers event, in
source order: mTLS warning (src lines 108-114), then the two decode
warnings. -/
def respWarnLogs (env : RespEnv) : List LogEntry :=
  (if (env.mtls.map mtlsSet).getD false then [] else [LogEntry.warnMtls])
    ++ decodeWarns LogEntry.warnSanNotUtf8 env.uri_san_peer_certificate
    ++ decodeWarns LogEntry.warnClusterNotUtf8 env.cluster_name

/-- The state after the two identity-property lookups of src lines
116-139: each field is overwritten (`Option::replace`) exactly when the
corresponding property is present and decodes as UTF-8. -/
def updateIdentities (s : DependencyLearner) (env : RespEnv) : DependencyLearner :=
  { s with
    downstream_peer_certificate :=
      (decodeProp env.uri_san_peer_certificate).or s.downstream_peer_certificate
    upstream_cluster := (decodeProp env.cluster_name).or s.upstream_cluster }

/-- The edge string of src lines 142-146: downstream identity, the
literal arrow separator, upstream identity, each unresolved side
rendered as the question-mark placeholder. -/
def edgeOf (s : DependencyLearner) : String :=
  s.downstream_peer_certificate.getD "?" ++ " -> " ++ s.upstream_cluster.getD "?"

/-- The response headers added on emission (src lines 148-150): the
configured header name with the edge string, when configured. -/
def emitHeaders (cfg : DependencyLearnerConfig) (edge : String) : List (String × String) :=
  match cfg.response_header with
  | some h => [(h, edge)]
  | none => []

/-- Everything one `on_http_response_headers` call produces. -/
structure RespOut where
  state : DependencyLearner
  action : Action
  logs : List LogEntry
  headers : List (String × String)
deriving DecidableEq, Repr

/-- `DependencyLearner::on_http_response_headers` (src lines 103-155):
no-op once notified; otherwise warn about a non-mTLS connection, look
up and decode the two identity properties, and emit (trace log,
optional response header, `notified := true`) when the upstream cluster
is resolved or the frame is final. Always returns `Action::Continue`. -/
def on_http_response_headers (s : DependencyLearner) (env : RespEnv) (end_of_stream : Bool) :
    RespOut :=
  if s.notified then
    ⟨s, Action.Continue, [], []⟩
  else
    let s2 := updateIdentities s env
    if s2.upstream_cluster.isSome || end_of_stream then
      ⟨{ s2 with notified := true }, Action.Continue,
        respWarnLogs env ++ [LogEntry.traceEdge (edgeOf s2)],
        emitHeaders s2.config (edgeOf s2)⟩
    else
      ⟨s2, Action.Continue, respWarnLogs env, []⟩

/-! ## Multi-event runs -/

/-- The edge strings among a list of log lines. -/
def emittedEdges (logs : List LogEntry) : List String :=
  logs.filterMap fun l =>
    match l with
    | LogEntry.traceEdge e => some e
    | _ => none

/-- Run a sequence of response-headers events (environment and
end-of-stream flag for each), threading the observer state and
accumulating logs and added headers. -/
def runResp (s : DependencyLearner) : List (RespEnv × Bool) →
    DependencyLearner × List LogEntry × List (String × String)
  | [] => (s, [], [])
  | ev :: rest =>
    let r := on_http_response_headers s ev.1 ev.2
    let t := runResp r.state rest
    (t.1, r.logs ++ t.2.1, r.headers ++ t.2.2)

/-! ## Basic lemmas about the response-headers callback -/

/-- Once notified, the callback is a complete no-op. -/
theorem resp_noop_of_notified (s : DependencyLearner) (env : RespEnv) (eos : Bool)
    (h : s.notified = true) :
    on_http_response_headers s env eos = ⟨s, Action.Continue, [], []⟩ := by
  simp [on_http_response_headers, h]

/-- The emitting branch of the callback. -/
theorem resp_emit (s : DependencyLearner) (env : RespEnv) (eos : Bool)
    (h : s.notified = false)
    (hc : ((updateIdentities s env).upstream_cluster.isSome || eos) = true) :
    on_http_response_headers s env eos =
      ⟨{ updateIdentities s env with notified := true }, Action.Continue,
        respWarnLogs env ++ [LogEntry.traceEdge (edgeOf (updateIdentities s env))],
        emitHeaders (updateIdentities s env).config (edgeOf (updateIdentities s env))⟩ := by
  simp [on_http_response_headers, h, hc]

/-- The non-emitting branch of the callback. -/
theorem resp_noemit (s : DependencyLearner) (env : RespEnv) (eos : Bool)
    (h : s.notified = false)
    (hc : ((updateIdentities s env).upstream_cluster.isSome || eos) = false) :
    on_http_response_headers s env eos =
      ⟨updateIdentities s env, Action.Continue, respWarnLogs env, []⟩ := by
  simp [on_http_response_headers, h, hc]

theorem updateIdentities_notified (s : DependencyLearner) (env : RespEnv) :
    (updateIdentities s env).notified = s.notified := rfl

theorem updateIdentities_config (s : DependencyLearner) (env : RespEnv) :
    (updateIdentities s env).config = s.config := rfl

theorem updateIdentities_authority (s : DependencyLearner) (env : RespEnv) :
    (updateIdentities s env).authority = s.authority := rfl

theorem updateIdentities_path (s : DependencyLearner) (env : RespEnv) :
    (updateIdentities s env).path = s.path := rfl

theorem updateIdentities_downstream (s : DependencyLearner) (env : RespEnv) :
    (updateIdentities s env).downstream_peer_certificate =
      (decodeProp env.uri_san_peer_certificate).or s.downstream_peer_certificate := rfl

theorem updateIdentities_upstream (s : DependencyLearner) (env : RespEnv) :
    (updateIdentities s env).upstream_cluster =
      (decodeProp env.cluster_name).or s.upstream_cluster := rfl

/-! ## Lemmas about emitted edges and logs -/

theorem emittedEdges_append (a b : List LogEntry) :
    emittedEdges (a ++ b) = emittedEdges a ++ emittedEdges b := by
  simp [emittedEdges, List.filterMap_append]

theorem emittedEdges_decodeWarns_san (raw : Option (List Nat)) :
    emittedEdges (decodeWarns LogEntry.warnSanNotUtf8 raw) = [] := by
  rcases raw with _ | bytes
  · rfl
  · show emittedEdges
      (if (from_utf8 bytes).isNone then [LogEntry.warnSanNotUtf8] else []) = []
    split <;> rfl

theorem emittedEdges_decodeWarns_cluster (raw : Option (List Nat)) :
    emittedEdges (decodeWarns LogEntry.warnClusterNotUtf8 raw) = [] := by
  rcases raw with _ | bytes
  · rfl
  · show emittedEdges
      (if (from_utf8 bytes).isNone then [LogEntry.warnClusterNotUtf8] else []) = []
    split <;> rfl

theorem emittedEdges_traceEdge (e : String) :
    emittedEdges [LogEntry.traceEdge e] = [e] := rfl

/-- The warning log lines never contain an edge trace line. -/
theorem emittedEdges_respWarnLogs (env : RespEnv) :
    emittedEdges (respWarnLogs env) = [] := by
  unfold respWarnLogs
  rw [emittedEdges_append, emittedEdges_append,
    emittedEdges_decodeWarns_san, emittedEdges_decodeWarns_cluster]
  split <;> rfl

/-- At most one header is added on an emission. -/
theorem emitHeaders_length_le_one (cfg : DependencyLearnerConfig) (edge : String) :
    (emitHeaders cfg edge).length ≤ 1 := by
  unfold emitHeaders
  rcases cfg.response_header with _ | h <;> simp

/-! ## Lemmas about multi-event runs -/

theorem runResp_cons (s : DependencyLearner) (ev : RespEnv × Bool)
    (evs : List (RespEnv × Bool)) :
    runResp s (ev :: evs) =
      ((runResp (on_http_response_headers s ev.1 ev.2).state evs).1,
        (on_http_response_headers s ev.1 ev.2).logs ++
          (runResp (on_http_response_headers s ev.1 ev.2).state evs).2.1,
        (on_http_response_headers s ev.1 ev.2).headers ++
          (runResp (on_http_response_headers s ev.1 ev.2).state evs).2.2) := rfl

/-- Once notified, an entire run of further response-headers events
changes nothing and produces nothing. -/
theorem runResp_noop_of_notified (evs : List (RespEnv × Bool)) (s : DependencyLearner)
    (h : s.notified = true) :
    runResp s evs = (s, [], []) := by
  induction evs generalizing s with
  | nil => rfl
  | cons ev rest ih =>
    simp only [runResp, resp_noop_of_notified s ev.1 ev.2 h, ih s h]
    rfl

/-- Over any run that starts un-notified, at most one response header is
ever added. -/
theorem runResp_headers_le_one (evs : List (RespEnv × Bool)) (s : DependencyLearner)
    (h : s.notified = false) :
    (runResp s evs).2.2.length ≤ 1 := by
  induction evs generalizing s with
  | nil => simp [runResp]
  | cons ev rest ih =>
    by_cases hc : ((updateIdentities s ev.1).upstream_cluster.isSome || ev.2) = true
    · simp only [runResp, resp_emit s ev.1 ev.2 h hc]
      rw [runResp_noop_of_notified rest _ rfl]
      simpa using emitHeaders_length_le_one (updateIdentities s ev.1).config
        (edgeOf (updateIdentities s ev.1))
    · rw [Bool.not_eq_true] at hc
      simp only [runResp, resp_noemit s ev.1 ev.2 h hc]
      simpa using ih (updateIdentities s ev.1) (by rw [updateIdentities_notified]; exact h)

/-- Over any run that starts un-notified and whose last event is the
final frame, exactly one edge trace line is produced. -/
theorem runResp_edges_once (evs : List (RespEnv × Bool)) (env : RespEnv)
    (s : DependencyLearner) (h : s.notified = false) :
    (emittedEdges (runResp s (evs ++ [(env, true)])).2.1).length = 1 := by
  induction evs generalizing s with
  | nil =>
    have hc : ((updateIdentities s env).upstream_cluster.isSome || true) = true :=
      Bool.or_true _
    rw [List.nil_append, runResp_cons, resp_emit s env true h hc]
    simp [runResp, emittedEdges_append, emittedEdges_respWarnLogs, emittedEdges_traceEdge]
  | cons ev rest ih =>
    rw [List.cons_append, runResp_cons]
    by_cases hc : ((updateIdentities s ev.1).upstream_cluster.isSome || ev.2) = true
    · rw [resp_emit s ev.1 ev.2 h hc]
      have hrun := runResp_noop_of_notified (rest ++ [(env, true)])
        { updateIdentities s ev.1 with notified := true } rfl
      simp [hrun, emittedEdges_append, emittedEdges_respWarnLogs, emittedEdges_traceEdge]
    · rw [Bool.not_eq_true] at hc
      rw [resp_noemit s ev.1 ev.2 h hc]
      have hih := ih (updateIdentities s ev.1) (by rw [updateIdentities_notified]; exact h)
      simp [emittedEdges_append, emittedEdges_respWarnLogs, hih]

/-- For an un-notified observer the resulting downstream identity is
the one after this event's property lookups, emission or not. -/
theorem resp_state_downstream (s : DependencyLearner) (env : RespEnv) (eos : Bool)
    (h : s.notified = false) :
    (on_http_response_headers s env eos).state.downstream_peer_certificate =
      (updateIdentities s env).downstream_peer_certificate := by
  by_cases hc : ((updateIdentities s env).upstream_cluster.isSome || eos) = true
  · rw [resp_emit s env eos h hc]
  · rw [Bool.not_eq_true] at hc
    rw [resp_noemit s env eos h hc]

/-- For an un-notified observer the resulting upstream identity is the
one after this event's property lookups, emission or not. -/
theorem resp_state_upstream (s : DependencyLearner) (env : RespEnv) (eos : Bool)
    (h : s.notified = false) :
    (on_http_response_headers s env eos).state.upstream_cluster =
      (updateIdentities s env).upstream_cluster := by
  by_cases hc : ((updateIdentities s env).upstream_cluster.isSome || eos) = true
  · rw [resp_emit s env eos h hc]
  · rw [Bool.not_eq_true] at hc
    rw [resp_noemit s env eos h hc]

/-- The request-headers callback always returns the continue action. -/
theorem req_action_continue (s : DependencyLearner) (env : ReqEnv) (eos : Bool) :
    (on_http_request_headers s env eos).2 = Action.Continue := by
  unfold on_http_request_headers
  split <;> rfl

/-- The response-headers callback always returns the continue action. -/
theorem resp_action_continue (s : DependencyLearner) (env : RespEnv) (eos : Bool) :
    (on_http_response_headers s env eos).action = Action.Continue := by
  by_cases hn : s.notified = true
  · rw [resp_noop_of_notified s env eos hn]
  · rw [Bool.not_eq_true] at hn
    by_cases hc : ((updateIdentities s env).upstream_cluster.isSome || eos) = true
    · rw [resp_emit s env eos hn hc]
    · rw [Bool.not_eq_true] at hc
      rw [resp_noemit s env eos hn hc]

/-- Two environments on which the identity lookups agree produce the
same state, headers, action and emitted edges. -/
theorem resp_congr_of_updateIdentities_eq (s : DependencyLearner) (env env' : RespEnv)
    (eos : Bool) (hupd : updateIdentities s env = updateIdentities s env') :
    (on_http_response_headers s env eos).state = (on_http_response_headers s env' eos).state ∧
    (on_http_response_headers s env eos).headers =
      (on_http_response_headers s env' eos).headers ∧
    (on_http_response_headers s env eos).action =
      (on_http_response_headers s env' eos).action ∧
    emittedEdges (on_http_response_headers s env eos).logs =
      emittedEdges (on_http_response_headers s env' eos).logs := by
  by_cases hn : s.notified = true
  · rw [resp_noop_of_notified s env eos hn, resp_noop_of_notified s env' eos hn]
    exact ⟨rfl, rfl, rfl, rfl⟩
  · rw [Bool.not_eq_true] at hn
    by_cases hc : ((updateIdentities s env).upstream_cluster.isSome || eos) = true
    · have hc' : ((updateIdentities s env').upstream_cluster.isSome || eos) = true := by
        rw [← hupd]; exact hc
      rw [resp_emit s env eos hn hc, resp_emit s env' eos hn hc']
      refine ⟨by rw [hupd], by rw [hupd], rfl, ?_⟩
      simp [emittedEdges_append, emittedEdges_respWarnLogs, emittedEdges_traceEdge, hupd]
    · rw [Bool.not_eq_true] at hc
      have hc' : ((updateIdentities s env').upstream_cluster.isSome || eos) = false := by
        rw [← hupd]; exact hc
      rw [resp_noemit s env eos hn hc, resp_noemit s env' eos hn hc']
      exact ⟨by rw [hupd], rfl, rfl,
        by simp [emittedEdges_respWarnLogs]⟩

/-! ## Example values used to instantiate the claims -/

/-- Configuration with no response header (the default). -/
def cfgNone : DependencyLearnerConfig := { response_header := none }

/-- Configuration publishing under the header x-dep-edge. -/
def cfgEdge : DependencyLearnerConfig := { response_header := some "x-dep-edge" }

/-- Environment in which every property lookup fails. -/
def envEmpty : RespEnv :=
  { mtls := none, uri_san_peer_certificate := none, cluster_name := none }

/-- An already-notified observer. -/
def notifiedEx : DependencyLearner :=
  { DependencyLearner.new cfgEdge with notified := true }

/-- An observer that has already captured an upstream cluster. -/
def observedEx : DependencyLearner :=
  { DependencyLearner.new cfgEdge with upstream_cluster := some "payments-svc" }

/-! ## Claims -/

/-- C1: for a not-yet-notified observer, a response-headers event emits
the edge (notified becomes true and the trace log is produced) iff the
upstream identity is resolved after this event's property lookups or the
event is the final frame; and any run from an un-notified state whose
last event is the final frame produces exactly one edge trace line. -/
theorem C1_emit_iff_and_exactly_once (s : DependencyLearner) (env env2 : RespEnv)
    (eos : Bool) (evs : List (RespEnv × Bool)) (h : s.notified = false) :
    (((on_http_response_headers s env eos).state.notified = true ∧
        emittedEdges (on_http_response_headers s env eos).logs ≠ []) ↔
      ((updateIdentities s env).upstream_cluster.isSome = true ∨ eos = true)) ∧
    (emittedEdges (runResp s (evs ++ [(env2, true)])).2.1).length = 1 := by
  refine ⟨?_, runResp_edges_once evs env2 s h⟩
  by_cases hc : ((updateIdentities s env).upstream_cluster.isSome || eos) = true
  · rw [resp_emit s env eos h hc]
    have hor : (updateIdentities s env).upstream_cluster.isSome = true ∨ eos = true := by
      rcases Bool.or_eq_true_iff.mp hc with h1 | h1
      · exact Or.inl h1
      · exact Or.inr h1
    simp [emittedEdges_append, emittedEdges_respWarnLogs, emittedEdges_traceEdge, hor]
  · rw [Bool.not_eq_true] at hc
    rw [resp_noemit s env eos h hc]
    have h1 : (updateIdentities s env).notified = false := by
      rw [updateIdentities_notified]; exact h
    have h2 := Bool.or_eq_false_iff.mp hc
    simp [h1, h2.1, h2.2]

/-- C1 witness: fresh observer, empty environment, final frame. -/
theorem C1_witness :
    (DependencyLearner.new cfgNone).notified = false ∧
    ((((on_http_response_headers (DependencyLearner.new cfgNone) envEmpty true).state.notified
          = true ∧
        emittedEdges
          (on_http_response_headers (DependencyLearner.new cfgNone) envEmpty true).logs ≠ []) ↔
      ((updateIdentities (DependencyLearner.new cfgNone) envEmpty).upstream_cluster.isSome = true ∨
        true = true)) ∧
    (emittedEdges
        (runResp (DependencyLearner.new cfgNone) ([] ++ [(envEmpty, true)])).2.1).length = 1) :=
  ⟨rfl, C1_emit_iff_and_exactly_once (DependencyLearner.new cfgNone) envEmpty envEmpty true [] rfl⟩

/-- C2: once notified, a further response-headers event returns the
state unchanged with no logs and no headers, and from a fresh observer
at most one response header is ever added over any event run. -/
theorem C2_notified_noop_at_most_once (s : DependencyLearner) (env : RespEnv) (eos : Bool)
    (cfg : DependencyLearnerConfig) (evs : List (RespEnv × Bool)) (h : s.notified = true) :
    on_http_response_headers s env eos = ⟨s, Action.Continue, [], []⟩ ∧
    (runResp (DependencyLearner.new cfg) evs).2.2.length ≤ 1 :=
  ⟨resp_noop_of_notified s env eos h, runResp_headers_le_one evs (DependencyLearner.new cfg) rfl⟩

/-- C2 witness: an already-notified observer on the final frame, and a
two-event run from a fresh observer. -/
theorem C2_witness :
    notifiedEx.notified = true ∧
    (on_http_response_headers notifiedEx envEmpty true = ⟨notifiedEx, Action.Continue, [], []⟩ ∧
      (runResp (DependencyLearner.new cfgEdge) [(envEmpty, true), (envEmpty, true)]).2.2.length
        ≤ 1) :=
  ⟨rfl, C2_notified_noop_at_most_once notifiedEx envEmpty true cfgEdge
    [(envEmpty, true), (envEmpty, true)] rfl⟩

/-- C3: every emitted edge string is the downstream identity, the
literal arrow separator, and the upstream identity, unresolved sides
rendered as the question-mark placeholder. -/
theorem C3_edge_format (s : DependencyLearner) (env : RespEnv) (eos : Bool) (e : String)
    (h : e ∈ emittedEdges (on_http_response_headers s env eos).logs) :
    e = (on_http_response_headers s env eos).state.downstream_peer_certificate.getD "?"
        ++ " -> " ++ (on_http_response_headers s env eos).state.upstream_cluster.getD "?" := by
  by_cases hn : s.notified = true
  · rw [resp_noop_of_notified s env eos hn] at h
    simp [emittedEdges] at h
  · rw [Bool.not_eq_true] at hn
    by_cases hc : ((updateIdentities s env).upstream_cluster.isSome || eos) = true
    · rw [resp_emit s env eos hn hc] at h ⊢
      simp only [emittedEdges_append, emittedEdges_respWarnLogs, emittedEdges_traceEdge,
        List.nil_append, List.mem_singleton] at h
      simp [h, edgeOf]
    · rw [Bool.not_eq_true] at hc
      rw [resp_noemit s env eos hn hc] at h
      simp [emittedEdges_respWarnLogs] at h

/-- C3 witness: downstream unresolved, upstream captured as
payments-svc, emitting on the final frame. -/
theorem C3_witness :
    "? -> payments-svc" ∈
      emittedEdges (on_http_response_headers observedEx envEmpty true).logs ∧
    "? -> payments-svc" =
      (on_http_response_headers observedEx envEmpty true).state.downstream_peer_certificate.getD
          "?"
        ++ " -> "
        ++ (on_http_response_headers observedEx envEmpty true).state.upstream_cluster.getD "?" :=
  ⟨by decide, C3_edge_format observedEx envEmpty true "? -> payments-svc" (by decide)⟩

/-- C8: both HTTP callbacks return the continue action for every input
and every observer state. -/
theorem C8_always_continue (s : DependencyLearner) (renv : ReqEnv) (env : RespEnv)
    (eos1 eos2 : Bool) :
    (on_http_request_headers s renv eos1).2 = Action.Continue ∧
    (on_http_response_headers s env eos2).action = Action.Continue :=
  ⟨req_action_continue s renv eos1, resp_action_continue s env eos2⟩

/-- C4: with the x-dep-edge configuration an emission publishes the
edge string under the response header x-dep-edge; with the empty-object
configuration or an absent payload the response header stays unset, so
an emission adds no header while the edge trace line still occurs. -/
theorem C4_config_roundtrip (s : DependencyLearner) (env : RespEnv) (eos : Bool)
    (h : s.notified = false)
    (hc : ((updateIdentities s env).upstream_cluster.isSome || eos) = true) :
    on_configure DependencyLearnerRoot.new
        (some (some (Json.obj [("response_header", Json.str "x-dep-edge")]))) =
      ({ config := cfgEdge }, true) ∧
    on_configure DependencyLearnerRoot.new (some (some (Json.obj []))) =
      ({ config := cfgNone }, true) ∧
    on_configure DependencyLearnerRoot.new none = (DependencyLearnerRoot.new, true) ∧
    LogEntry.traceEdge (edgeOf (updateIdentities s env)) ∈
      (on_http_response_headers s env eos).logs ∧
    (s.config = cfgEdge →
      (on_http_response_headers s env eos).headers =
        [("x-dep-edge", edgeOf (updateIdentities s env))]) ∧
    (s.config = cfgNone → (on_http_response_headers s env eos).headers = []) := by
  refine ⟨rfl, rfl, rfl, ?_, ?_, ?_⟩
  · rw [resp_emit s env eos h hc]
    simp
  · intro hcfg
    rw [resp_emit s env eos h hc]
    have : (updateIdentities s env).config = cfgEdge := by
      rw [updateIdentities_config, hcfg]
    simp [emitHeaders, this, cfgEdge]
  · intro hcfg
    rw [resp_emit s env eos h hc]
    have : (updateIdentities s env).config = cfgNone := by
      rw [updateIdentities_config, hcfg]
    simp [emitHeaders, this, cfgNone]

/-- C4 witness: observer configured with x-dep-edge, upstream already
captured, final frame. -/
theorem C4_witness :
    observedEx.notified = false ∧
    ((updateIdentities observedEx envEmpty).upstream_cluster.isSome || true) = true ∧
    (on_configure DependencyLearnerRoot.new
        (some (some (Json.obj [("response_header", Json.str "x-dep-edge")]))) =
      ({ config := cfgEdge }, true) ∧
    on_configure DependencyLearnerRoot.new (some (some (Json.obj []))) =
      ({ config := cfgNone }, true) ∧
    on_configure DependencyLearnerRoot.new none = (DependencyLearnerRoot.new, true) ∧
    LogEntry.traceEdge (edgeOf (updateIdentities observedEx envEmpty)) ∈
      (on_http_response_headers observedEx envEmpty true).logs ∧
    (observedEx.config = cfgEdge →
      (on_http_response_headers observedEx envEmpty true).headers =
        [("x-dep-edge", edgeOf (updateIdentities observedEx envEmpty))]) ∧
    (observedEx.config = cfgNone →
      (on_http_response_headers observedEx envEmpty true).headers = [])) :=
  ⟨rfl, by decide, C4_config_roundtrip observedEx envEmpty true rfl (by decide)⟩

/-- C5: configure succeeds keeping the default configuration when no
bytes are supplied; on a malformed payload it fails leaving the held
configuration unchanged; on a successful parse the parsed configuration
is the one copied into every subsequently created observer; an
unrecognized field is ignored by the deserializer. -/
theorem C5_configure_semantics (root : DependencyLearnerRoot) (rawBad rawGood : Option Json)
    (c : DependencyLearnerConfig) (k : String) (v : Json) (fields : List (String × Json))
    (hbad : serde_json_from_slice rawBad = none)
    (hgood : serde_json_from_slice rawGood = some c)
    (hk : k ≠ "response_header") :
    on_configure DependencyLearnerRoot.new none = (DependencyLearnerRoot.new, true) ∧
    DependencyLearnerRoot.new.config = { response_header := none } ∧
    on_configure root (some rawBad) = (root, false) ∧
    on_configure root (some rawGood) = ({ config := c }, true) ∧
    create_http_context (on_configure root (some rawGood)).1 = DependencyLearner.new c ∧
    deserializeConfig (Json.obj ((k, v) :: fields)) = deserializeConfig (Json.obj fields) ∧
    deserializeConfig (Json.arr [Json.str "x-dep-edge"]) = some cfgEdge ∧
    deserializeConfig (Json.arr [Json.null]) = some cfgNone := by
  refine ⟨rfl, rfl, ?_, ?_, ?_, ?_, rfl, rfl⟩
  · simp [on_configure, hbad]
  · simp [on_configure, hgood]
  · simp [on_configure, hgood, create_http_context]
  · simp [deserializeConfig, getFieldOnce, hk]

/-- C5 witness: a root holding a non-default configuration, a malformed
payload, and the x-dep-edge payload. -/
theorem C5_witness :
    serde_json_from_slice (some (Json.num 3)) = none ∧
    serde_json_from_slice (some (Json.obj [("response_header", Json.str "x-dep-edge")])) =
      some cfgEdge ∧
    "other" ≠ "response_header" ∧
    (on_configure DependencyLearnerRoot.new none = (DependencyLearnerRoot.new, true) ∧
    DependencyLearnerRoot.new.config = { response_header := none } ∧
    on_configure { config := cfgEdge } (some (some (Json.num 3))) =
      ({ config := cfgEdge }, false) ∧
    on_configure { config := cfgEdge }
        (some (some (Json.obj [("response_header", Json.str "x-dep-edge")]))) =
      ({ config := cfgEdge }, true) ∧
    create_http_context
        (on_configure { config := cfgEdge }
          (some (some (Json.obj [("response_header", Json.str "x-dep-edge")])))).1 =
      DependencyLearner.new cfgEdge ∧
    deserializeConfig (Json.obj [("other", Json.null)]) = deserializeConfig (Json.obj []) ∧
    deserializeConfig (Json.arr [Json.str "x-dep-edge"]) = some cfgEdge ∧
    deserializeConfig (Json.arr [Json.null]) = some cfgNone) :=
  ⟨rfl, rfl, by decide,
    C5_configure_semantics { config := cfgEdge } (some (Json.num 3))
      (some (Json.obj [("response_header", Json.str "x-dep-edge")])) cfgEdge
      "other" Json.null [] rfl rfl (by decide)⟩

/-- Environment whose peer-certificate property holds a non-UTF-8 byte. -/
def envBadSan : RespEnv :=
  { mtls := none, uri_san_peer_certificate := some [0xFF], cluster_name := none }

/-- Environment whose cluster-name property holds a non-UTF-8 byte. -/
def envBadCluster : RespEnv :=
  { mtls := none, uri_san_peer_certificate := none, cluster_name := some [0xFF] }

/-- C6: before notification, an identity property with non-UTF-8 bytes
is treated exactly as an absent property: same resulting state and
headers, the event still returns continue, a decode warning is logged,
the state field keeps its previous value, and an unresolved side is
rendered as the question-mark placeholder on emission. -/
theorem C6_invalid_utf8_treated_as_absent (s : DependencyLearner) (env env2 : RespEnv)
    (eos : Bool) (raw : List Nat) (h : s.notified = false) (hbad : from_utf8 raw = none)
    (hsan : env.uri_san_peer_certificate = some raw) (hclu : env2.cluster_name = some raw) :
    ((on_http_response_headers s env eos).state =
        (on_http_response_headers s { env with uri_san_peer_certificate := none } eos).state ∧
      (on_http_response_headers s env eos).headers =
        (on_http_response_headers s { env with uri_san_peer_certificate := none } eos).headers ∧
      (on_http_response_headers s env eos).action = Action.Continue ∧
      LogEntry.warnSanNotUtf8 ∈ (on_http_response_headers s env eos).logs ∧
      (on_http_response_headers s env eos).state.downstream_peer_certificate =
        s.downstream_peer_certificate ∧
      (s.downstream_peer_certificate = none → eos = true →
        emittedEdges (on_http_response_headers s env eos).logs =
          ["?" ++ " -> " ++ (updateIdentities s env).upstream_cluster.getD "?"])) ∧
    ((on_http_response_headers s env2 eos).state =
        (on_http_response_headers s { env2 with cluster_name := none } eos).state ∧
      (on_http_response_headers s env2 eos).headers =
        (on_http_response_headers s { env2 with cluster_name := none } eos).headers ∧
      (on_http_response_headers s env2 eos).action = Action.Continue ∧
      LogEntry.warnClusterNotUtf8 ∈ (on_http_response_headers s env2 eos).logs ∧
      (on_http_response_headers s env2 eos).state.upstream_cluster = s.upstream_cluster ∧
      (s.upstream_cluster = none → eos = true →
        emittedEdges (on_http_response_headers s env2 eos).logs =
          [(updateIdentities s env2).downstream_peer_certificate.getD "?" ++ " -> " ++ "?"])) := by
  have hdec : decodeProp env.uri_san_peer_certificate = none := by
    rw [decodeProp, hsan]; simpa using hbad
  have hdec2 : decodeProp env2.cluster_name = none := by
    rw [decodeProp, hclu]; simpa using hbad
  have hupd : updateIdentities s env =
      updateIdentities s { env with uri_san_peer_certificate := none } := by
    unfold updateIdentities
    rw [hdec]
    rfl
  have hupd2 : updateIdentities s env2 =
      updateIdentities s { env2 with cluster_name := none } := by
    unfold updateIdentities
    rw [hdec2]
    rfl
  have hw : LogEntry.warnSanNotUtf8 ∈ respWarnLogs env := by
    unfold respWarnLogs decodeWarns
    rw [hsan]
    simp [hbad]
  have hw2 : LogEntry.warnClusterNotUtf8 ∈ respWarnLogs env2 := by
    unfold respWarnLogs decodeWarns
    rw [hclu]
    simp [hbad]
  have hmem : ∀ e2 : RespEnv, ∀ l : LogEntry, l ∈ respWarnLogs e2 →
      l ∈ (on_http_response_headers s e2 eos).logs := by
    intro e2 l hl
    by_cases hc : ((updateIdentities s e2).upstream_cluster.isSome || eos) = true
    · rw [resp_emit s e2 eos h hc]
      exact List.mem_append_left _ hl
    · rw [Bool.not_eq_true] at hc
      rw [resp_noemit s e2 eos h hc]
      exact hl
  obtain ⟨hst, hhd, -, -⟩ := resp_congr_of_updateIdentities_eq s env
    { env with uri_san_peer_certificate := none } eos hupd
  obtain ⟨hst2, hhd2, -, -⟩ := resp_congr_of_updateIdentities_eq s env2
    { env2 with cluster_name := none } eos hupd2
  refine ⟨⟨hst, hhd, resp_action_continue s env eos, hmem env _ hw, ?_, ?_⟩,
    ⟨hst2, hhd2, resp_action_continue s env2 eos, hmem env2 _ hw2, ?_, ?_⟩⟩
  · rw [resp_state_downstream s env eos h, updateIdentities_downstream, hdec]
    rfl
  · intro hdown heos
    subst heos
    rw [resp_emit s env true h (Bool.or_true _)]
    have hd : (updateIdentities s env).downstream_peer_certificate = none := by
      rw [updateIdentities_downstream, hdec, hdown]
      rfl
    simp [emittedEdges_append, emittedEdges_respWarnLogs, emittedEdges_traceEdge, edgeOf, hd]
  · rw [resp_state_upstream s env2 eos h, updateIdentities_upstream, hdec2]
    rfl
  · intro hup heos
    subst heos
    rw [resp_emit s env2 true h (Bool.or_true _)]
    have hu : (updateIdentities s env2).upstream_cluster = none := by
      rw [updateIdentities_upstream, hdec2, hup]
      rfl
    simp [emittedEdges_append, emittedEdges_respWarnLogs, emittedEdges_traceEdge, edgeOf, hu]

/-- C6 witness: fresh observer, one event with a non-UTF-8
peer-certificate byte, one with a non-UTF-8 cluster-name byte, final
frame. -/
theorem C6_witness :
    (DependencyLearner.new cfgNone).notified = false ∧
    from_utf8 [0xFF] = none ∧
    envBadSan.uri_san_peer_certificate = some [0xFF] ∧
    envBadCluster.cluster_name = some [0xFF] ∧
    (((on_http_response_headers (DependencyLearner.new cfgNone) envBadSan true).state =
        (on_http_response_headers (DependencyLearner.new cfgNone)
          { envBadSan with uri_san_peer_certificate := none } true).state ∧
      (on_http_response_headers (DependencyLearner.new cfgNone) envBadSan true).headers =
        (on_http_response_headers (DependencyLearner.new cfgNone)
          { envBadSan with uri_san_peer_certificate := none } true).headers ∧
      (on_http_response_headers (DependencyLearner.new cfgNone) envBadSan true).action =
        Action.Continue ∧
      LogEntry.warnSanNotUtf8 ∈
        (on_http_response_headers (DependencyLearner.new cfgNone) envBadSan true).logs ∧
      (on_http_response_headers (DependencyLearner.new cfgNone)
          envBadSan true).state.downstream_peer_certificate =
        (DependencyLearner.new cfgNone).downstream_peer_certificate ∧
      ((DependencyLearner.new cfgNone).downstream_peer_certificate = none → true = true →
        emittedEdges
            (on_http_response_headers (DependencyLearner.new cfgNone) envBadSan true).logs =
          ["?" ++ " -> " ++
            (updateIdentities (DependencyLearner.new cfgNone) envBadSan).upstream_cluster.getD
              "?"])) ∧
    ((on_http_response_headers (DependencyLearner.new cfgNone) envBadCluster true).state =
        (on_http_response_headers (DependencyLearner.new cfgNone)
          { envBadCluster with cluster_name := none } true).state ∧
      (on_http_response_headers (DependencyLearner.new cfgNone) envBadCluster true).headers =
        (on_http_response_headers (DependencyLearner.new cfgNone)
          { envBadCluster with cluster_name := none } true).headers ∧
      (on_http_response_headers (DependencyLearner.new cfgNone) envBadCluster true).action =
        Action.Continue ∧
      LogEntry.warnClusterNotUtf8 ∈
        (on_http_response_headers (DependencyLearner.new cfgNone) envBadCluster true).logs ∧
      (on_http_response_headers (DependencyLearner.new cfgNone)
          envBadCluster true).state.upstream_cluster =
        (DependencyLearner.new cfgNone).upstream_cluster ∧
      ((DependencyLearner.new cfgNone).upstream_cluster = none → true = true →
        emittedEdges
            (on_http_response_headers (DependencyLearner.new cfgNone) envBadCluster true).logs =
          [(updateIdentities (DependencyLearner.new cfgNone)
              envBadCluster).downstream_peer_certificate.getD "?" ++ " -> " ++ "?"]))) :=
  ⟨rfl, by decide, rfl, rfl,
    C6_invalid_utf8_treated_as_absent (DependencyLearner.new cfgNone) envBadSan envBadCluster
      true [0xFF] rfl (by decide) rfl rfl⟩

/-- Request environment with both pseudo-headers present. -/
def reqEnvFull : ReqEnv := { authority := some "example.com", path := some "/checkout" }

/-- Request environment with both pseudo-headers absent. -/
def reqEnvEmpty : ReqEnv := { authority := none, path := none }

/-- Request environment with the authority header present and the path
header absent. -/
def reqEnvMixed : ReqEnv := { authority := some "example.com", path := none }

/-- C7: a non-final request-headers frame changes nothing and returns
continue; on the final frame each of the authority and path header
values is, independently of the other, stored when present and left as
it was when absent, no other observation state changes, and the action
is continue. -/
theorem C7_request_header_capture (s : DependencyLearner)
    (envAny envA envA0 envP envP0 : ReqEnv) (a p : String)
    (ha : envA.authority = some a) (ha0 : envA0.authority = none)
    (hp : envP.path = some p) (hp0 : envP0.path = none) :
    on_http_request_headers s envAny false = (s, Action.Continue) ∧
    (on_http_request_headers s envA true).1.authority = some a ∧
    (on_http_request_headers s envA0 true).1.authority = s.authority ∧
    (on_http_request_headers s envP true).1.path = some p ∧
    (on_http_request_headers s envP0 true).1.path = s.path ∧
    (on_http_request_headers s envAny true).2 = Action.Continue ∧
    (on_http_request_headers s envAny true).1.notified = s.notified ∧
    (on_http_request_headers s envAny true).1.upstream_cluster = s.upstream_cluster ∧
    (on_http_request_headers s envAny true).1.downstream_peer_certificate =
      s.downstream_peer_certificate ∧
    (on_http_request_headers s envAny true).1.config = s.config := by
  refine ⟨rfl, ?_, ?_, ?_, ?_, req_action_continue s envAny true, ?_, ?_, ?_, ?_⟩ <;>
    simp [on_http_request_headers, ha, ha0, hp, hp0, Option.or]

/-- C7 witness: fresh observer; the environment with the authority
header present and the path header absent instantiates both the stored
and the left-alone conclusions on one final frame. -/
theorem C7_witness :
    reqEnvMixed.authority = some "example.com" ∧
    reqEnvEmpty.authority = none ∧
    reqEnvFull.path = some "/checkout" ∧
    reqEnvMixed.path = none ∧
    (on_http_request_headers (DependencyLearner.new cfgNone) reqEnvMixed false =
      (DependencyLearner.new cfgNone, Action.Continue) ∧
    (on_http_request_headers (DependencyLearner.new cfgNone) reqEnvMixed true).1.authority =
      some "example.com" ∧
    (on_http_request_headers (DependencyLearner.new cfgNone) reqEnvEmpty true).1.authority =
      (DependencyLearner.new cfgNone).authority ∧
    (on_http_request_headers (DependencyLearner.new cfgNone) reqEnvFull true).1.path =
      some "/checkout" ∧
    (on_http_request_headers (DependencyLearner.new cfgNone) reqEnvMixed true).1.path =
      (DependencyLearner.new cfgNone).path ∧
    (on_http_request_headers (DependencyLearner.new cfgNone) reqEnvMixed true).2 =
      Action.Continue ∧
    (on_http_request_headers (DependencyLearner.new cfgNone) reqEnvMixed true).1.notified =
      (DependencyLearner.new cfgNone).notified ∧
    (on_http_request_headers (DependencyLearner.new cfgNone)
        reqEnvMixed true).1.upstream_cluster =
      (DependencyLearner.new cfgNone).upstream_cluster ∧
    (on_http_request_headers (DependencyLearner.new cfgNone)
        reqEnvMixed true).1.downstream_peer_certificate =
      (DependencyLearner.new cfgNone).downstream_peer_certificate ∧
    (on_http_request_headers (DependencyLearner.new cfgNone) reqEnvMixed true).1.config =
      (DependencyLearner.new cfgNone).config) :=
  ⟨rfl, rfl, rfl, rfl,
    C7_request_header_capture (DependencyLearner.new cfgNone) reqEnvMixed reqEnvMixed
      reqEnvEmpty reqEnvFull reqEnvMixed "example.com" "/checkout" rfl rfl rfl rfl⟩

/-- Environment in which the mTLS property reports a mutually
authenticated connection, all else unresolved. -/
def envMtlsOn : RespEnv :=
  { mtls := some [1], uri_san_peer_certificate := none, cluster_name := none }

/-- C9: two response-headers events on the same observer state whose
environments differ only in the mTLS property produce the same state,
headers, action and emitted edges; the logs agree once the mTLS warning
is removed. -/
theorem C9_mtls_influences_only_logging (s : DependencyLearner) (env1 env2 : RespEnv)
    (eos : Bool)
    (hsan : env1.uri_san_peer_certificate = env2.uri_san_peer_certificate)
    (hclu : env1.cluster_name = env2.cluster_name) :
    (on_http_response_headers s env1 eos).state = (on_http_response_headers s env2 eos).state ∧
    (on_http_response_headers s env1 eos).headers =
      (on_http_response_headers s env2 eos).headers ∧
    (on_http_response_headers s env1 eos).action =
      (on_http_response_headers s env2 eos).action ∧
    emittedEdges (on_http_response_headers s env1 eos).logs =
      emittedEdges (on_http_response_headers s env2 eos).logs ∧
    (on_http_response_headers s env1 eos).logs.filter
        (fun l => decide (l ≠ LogEntry.warnMtls)) =
      (on_http_response_headers s env2 eos).logs.filter
        (fun l => decide (l ≠ LogEntry.warnMtls)) := by
  have hupd : updateIdentities s env1 = updateIdentities s env2 := by
    unfold updateIdentities
    rw [hsan, hclu]
  have hmtls : ∀ m : Option (List Nat),
      ((if (m.map mtlsSet).getD false then [] else [LogEntry.warnMtls]).filter
        (fun l => decide (l ≠ LogEntry.warnMtls))) = ([] : List LogEntry) := by
    intro m
    split <;> decide
  have hwarn : (respWarnLogs env1).filter (fun l => decide (l ≠ LogEntry.warnMtls)) =
      (respWarnLogs env2).filter (fun l => decide (l ≠ LogEntry.warnMtls)) := by
    unfold respWarnLogs
    rw [hsan, hclu]
    rw [List.filter_append, List.filter_append, List.filter_append, List.filter_append,
      hmtls env1.mtls, hmtls env2.mtls]
  obtain ⟨hst, hhd, hact, hedges⟩ := resp_congr_of_updateIdentities_eq s env1 env2 eos hupd
  refine ⟨hst, hhd, hact, hedges, ?_⟩
  by_cases hn : s.notified = true
  · rw [resp_noop_of_notified s env1 eos hn, resp_noop_of_notified s env2 eos hn]
  · rw [Bool.not_eq_true] at hn
    by_cases hc : ((updateIdentities s env1).upstream_cluster.isSome || eos) = true
    · have hc' : ((updateIdentities s env2).upstream_cluster.isSome || eos) = true := by
        rw [← hupd]; exact hc
      rw [resp_emit s env1 eos hn hc, resp_emit s env2 eos hn hc']
      show (respWarnLogs env1 ++ [LogEntry.traceEdge (edgeOf (updateIdentities s env1))]).filter
          (fun l => decide (l ≠ LogEntry.warnMtls)) =
        (respWarnLogs env2 ++ [LogEntry.traceEdge (edgeOf (updateIdentities s env2))]).filter
          (fun l => decide (l ≠ LogEntry.warnMtls))
      rw [List.filter_append, List.filter_append, hwarn, hupd]
    · rw [Bool.not_eq_true] at hc
      have hc' : ((updateIdentities s env2).upstream_cluster.isSome || eos) = false := by
        rw [← hupd]; exact hc
      rw [resp_noemit s env1 eos hn hc, resp_noemit s env2 eos hn hc']
      exact hwarn

/-- C9 witness: fresh observer, final frame, one environment without the
mTLS property and one reporting mTLS. -/
theorem C9_witness :
    envEmpty.uri_san_peer_certificate = envMtlsOn.uri_san_peer_certificate ∧
    envEmpty.cluster_name = envMtlsOn.cluster_name ∧
    ((on_http_response_headers (DependencyLearner.new cfgEdge) envEmpty true).state =
      (on_http_response_headers (DependencyLearner.new cfgEdge) envMtlsOn true).state ∧
    (on_http_response_headers (DependencyLearner.new cfgEdge) envEmpty true).headers =
      (on_http_response_headers (DependencyLearner.new cfgEdge) envMtlsOn true).headers ∧
    (on_http_response_headers (DependencyLearner.new cfgEdge) envEmpty true).action =
      (on_http_response_headers (DependencyLearner.new cfgEdge) envMtlsOn true).action ∧
    emittedEdges (on_http_response_headers (DependencyLearner.new cfgEdge) envEmpty true).logs =
      emittedEdges
        (on_http_response_headers (DependencyLearner.new cfgEdge) envMtlsOn true).logs ∧
    (on_http_response_headers (DependencyLearner.new cfgEdge) envEmpty true).logs.filter
        (fun l => decide (l ≠ LogEntry.warnMtls)) =
      (on_http_response_headers (DependencyLearner.new cfgEdge) envMtlsOn true).logs.filter
        (fun l => decide (l ≠ LogEntry.warnMtls))) :=
  ⟨rfl, rfl,
    C9_mtls_influences_only_logging (DependencyLearner.new cfgEdge) envEmpty envMtlsOn true
      rfl rfl⟩

/-- An observer that has already captured a downstream peer identity. -/
def downstreamEx : DependencyLearner :=
  { DependencyLearner.new cfgNone with
      downstream_peer_certificate := some "spiffe://cluster/cert-A" }

/-- C10: before notification, an absent or undecodable identity
property never erases a previously captured value, and a downstream
identity captured earlier appears in the edge emitted at the final
frame even when the property is unavailable there. -/
theorem C10_captured_identities_persist (s : DependencyLearner) (env : RespEnv) (eos : Bool)
    (v : String) (h : s.notified = false) :
    (decodeProp env.uri_san_peer_certificate = none →
      (on_http_response_headers s env eos).state.downstream_peer_certificate =
        s.downstream_peer_certificate) ∧
    (decodeProp env.cluster_name = none →
      (on_http_response_headers s env eos).state.upstream_cluster = s.upstream_cluster) ∧
    (s.downstream_peer_certificate = some v →
      decodeProp env.uri_san_peer_certificate = none → eos = true →
      emittedEdges (on_http_response_headers s env eos).logs =
        [v ++ " -> " ++ (updateIdentities s env).upstream_cluster.getD "?"]) := by
  refine ⟨?_, ?_, ?_⟩
  · intro hdec
    rw [resp_state_downstream s env eos h, updateIdentities_downstream, hdec]
    rfl
  · intro hdec
    rw [resp_state_upstream s env eos h, updateIdentities_upstream, hdec]
    rfl
  · intro hdown hdec heos
    subst heos
    rw [resp_emit s env true h (Bool.or_true _)]
    have hd : (updateIdentities s env).downstream_peer_certificate = some v := by
      rw [updateIdentities_downstream, hdec, hdown]
      rfl
    simp [emittedEdges_append, emittedEdges_respWarnLogs, emittedEdges_traceEdge, edgeOf, hd]

/-- C10 witness: observer with a previously captured downstream
identity, empty environment, final frame. -/
theorem C10_witness :
    downstreamEx.notified = false ∧
    ((decodeProp envEmpty.uri_san_peer_certificate = none →
      (on_http_response_headers downstreamEx envEmpty true).state.downstream_peer_certificate =
        downstreamEx.downstream_peer_certificate) ∧
    (decodeProp envEmpty.cluster_name = none →
      (on_http_response_headers downstreamEx envEmpty true).state.upstream_cluster =
        downstreamEx.upstream_cluster) ∧
    (downstreamEx.downstream_peer_certificate = some "spiffe://cluster/cert-A" →
      decodeProp envEmpty.uri_san_peer_certificate = none → true = true →
      emittedEdges (on_http_response_headers downstreamEx envEmpty true).logs =
        ["spiffe://cluster/cert-A" ++ " -> " ++
          (updateIdentities downstreamEx envEmpty).upstream_cluster.getD "?"])) :=
  ⟨rfl,
    C10_captured_identities_persist downstreamEx envEmpty true "spiffe://cluster/cert-A" rfl⟩

end DepLearner
